import Mathlib

/-
  Shallow embedding of the HeyDev DevRel Publisher frontend
  (src/src/app/page.tsx and the unnamed sample page), covering the
  shared session state document, the four gated CopilotKit actions,
  their render output and click/change handlers, and the status and
  error side channel.  Agent-side resolution logic that lives in the
  Python backend (absent from src/) is modelled from the spec and
  marked as such on each definition.
-/

namespace DevRel

/-- A candidate content topic, mirroring the `topics` element shape of
the `DevRelAgentState` interface in page.tsx. -/
structure Topic where
  title : String
  description : String
  source_type : String
  source_id : String
  content_types : List String
deriving DecidableEq

/-- The `content_drafts` object of `DevRelAgentState`. -/
structure ContentDrafts where
  blog_post : String
  code_example : String
  social_media : String
deriving DecidableEq

/-- The `content_record` object of `DevRelAgentState`. -/
structure ContentRecord where
  channel : String
  title : String
  summary : String
  content : String
  type : String
deriving DecidableEq

/-- A metadata value inside `copilotkit.metadata` (a TS `Record<string, any>`;
the code only ever stores the boolean `confirmed` flag, strings cover the
rest of the open `any` type for our purposes). -/
inductive MVal where
  | bool (b : Bool)
  | str (s : String)
deriving DecidableEq

/-- `copilotkit.metadata` as an association list with JS-object lookup
semantics (at most one binding per key in every value the code builds). -/
abbrev Metadata := List (String × MVal)

/-- Key lookup in a metadata object. -/
def lookupMeta : Metadata → String → Option MVal
  | [], _ => none
  | (k2, v) :: rest, k => if k2 = k then some v else lookupMeta rest k

/-- JS object spread `\x7b...m, k: v\x7d`: every other key keeps its value,
`k` is bound to `v`. -/
def spreadSet (m : Metadata) (k : String) (v : MVal) : Metadata :=
  m.filter (fun p => p.1 != k) ++ [(k, v)]

/-- The optional `copilotkit` sub-object of `DevRelAgentState`. -/
structure CopilotkitObj where
  actions : Option (List String)
  metadata : Option Metadata
deriving DecidableEq

/-- The shared session state document (`DevRelAgentState` in page.tsx). -/
structure DevRelAgentState where
  repo_url : String
  start_date : String
  topics : List Topic
  selected_topic : Option Topic
  content_drafts : ContentDrafts
  content_record : ContentRecord
  status : Option String
  error : Option String
  copilotkit : Option CopilotkitObj
  messages : Option (List String)
deriving DecidableEq

/-- The `initialState` passed to `useCoAgent` in `DevRelPublisher`:
every field empty or absent. -/
def initialState : DevRelAgentState :=
  { repo_url := ""
  , start_date := ""
  , topics := []
  , selected_topic := none
  , content_drafts := { blog_post := "", code_example := "", social_media := "" }
  , content_record := { channel := "", title := "", summary := "", content := "", type := "" }
  , status := none
  , error := none
  , copilotkit := none
  , messages := none }

/-- The CopilotKit gate status passed to `renderAndWaitForResponse`:
the code only distinguishes `"executing"` from the rest. -/
inductive GateStatus where
  | inProgress
  | executing
  | complete
deriving DecidableEq

/-- A value passed to a gate's `respond` callback. -/
inductive RespondValue where
  | str (s : String)
  | num (n : Nat)
deriving DecidableEq

/-- `onChange` of the repository URL text input:
`setState(\x7b ...state, repo_url: e.target.value \x7d)`. -/
def repoInputChange (s : DevRelAgentState) (v : String) : DevRelAgentState :=
  { s with repo_url := v }

/-- `onChange` of the date input:
`setState(\x7b ...state, start_date: e.target.value \x7d)`. -/
def dateInputChange (s : DevRelAgentState) (v : String) : DevRelAgentState :=
  { s with start_date := v }

/-- Click on the Submit button of the `set_github_repo` gate: the button is
`disabled` unless the gate status is `"executing"` (so the click does nothing
otherwise); when enabled, the handler calls `respond(state?.repo_url)` and
performs no `setState`. -/
def submitRepoClick (st : GateStatus) (s : DevRelAgentState) :
    DevRelAgentState × Option RespondValue :=
  if st = GateStatus.executing then (s, some (RespondValue.str s.repo_url)) else (s, none)

/-- Click on the Submit button of the `set_date_range` gate: disabled unless
executing; when enabled it calls `respond(state?.start_date)` with no
`setState`. -/
def submitDateClick (st : GateStatus) (s : DevRelAgentState) :
    DevRelAgentState × Option RespondValue :=
  if st = GateStatus.executing then (s, some (RespondValue.str s.start_date)) else (s, none)

/-- Click on the `idx`-th rendered topic card of the `select_topic` gate.  The
card is a `div` with no `disabled` guard, so its `onClick` always runs:
it sets `selected_topic` to the clicked topic and then calls
`respond(idx)` guarded by `respond &&` — CopilotKit supplies `respond`
only while the gate is executing, so no response is delivered otherwise. -/
def topicClick (st : GateStatus) (s : DevRelAgentState) (i : Fin s.topics.length) :
    DevRelAgentState × Option RespondValue :=
  ({ s with selected_topic := some (s.topics.get i) },
   if st = GateStatus.executing then some (RespondValue.num i.val) else none)

/-- Click on the "Edit More" button of the `confirm_content` gate: disabled
unless executing; when enabled it calls `respond("CANCEL")` and performs no
`setState`. -/
def editMoreClick (st : GateStatus) (s : DevRelAgentState) :
    DevRelAgentState × Option RespondValue :=
  if st = GateStatus.executing then (s, some (RespondValue.str "CANCEL")) else (s, none)

/-- The `setState` performed by the "Save & Publish" handler:
`setState(\x7b ...state, copilotkit: \x7b ...state.copilotkit, metadata:
\x7b ...(state.copilotkit?.metadata || \x7b\x7d), confirmed: true \x7d \x7d \x7d)`. -/
def savePublishState (s : DevRelAgentState) : DevRelAgentState :=
  { s with copilotkit := some ({
      actions := Option.bind s.copilotkit (fun c => c.actions),
      metadata := some (spreadSet
        (Option.getD (Option.bind s.copilotkit (fun c => c.metadata)) [])
        "confirmed" (MVal.bool true)) } : CopilotkitObj) }

/-- Click on the "Save & Publish" button of the `confirm_content` gate:
disabled unless executing; when enabled it performs `savePublishState` and
then calls `respond("CONFIRM")`. -/
def savePublishClick (st : GateStatus) (s : DevRelAgentState) :
    DevRelAgentState × Option RespondValue :=
  if st = GateStatus.executing then (savePublishState s, some (RespondValue.str "CONFIRM"))
  else (s, none)

/-- The option values of the Channel `<select>` in the confirm_content form. -/
def channelOptions : List String := ["", "blog", "twitter", "linkedin", "github"]

/-- The option values of the Type `<select>` in the confirm_content form. -/
def typeOptions : List String := ["", "blog_post", "code_example", "social_media"]

/-- `onChange` of the Channel select: the browser only fires changes carrying
one of the rendered option values, so the edit is indexed into
`channelOptions`; the handler replaces `content_record.channel`. -/
def editChannel (s : DevRelAgentState) (i : Fin channelOptions.length) : DevRelAgentState :=
  { s with content_record := { s.content_record with channel := channelOptions.get i } }

/-- `onChange` of the Title text input. -/
def editTitle (s : DevRelAgentState) (v : String) : DevRelAgentState :=
  { s with content_record := { s.content_record with title := v } }

/-- `onChange` of the Summary textarea. -/
def editSummary (s : DevRelAgentState) (v : String) : DevRelAgentState :=
  { s with content_record := { s.content_record with summary := v } }

/-- `onChange` of the Content textarea. -/
def editContent (s : DevRelAgentState) (v : String) : DevRelAgentState :=
  { s with content_record := { s.content_record with content := v } }

/-- `onChange` of the Type select, indexed into `typeOptions`. -/
def editType (s : DevRelAgentState) (i : Fin typeOptions.length) : DevRelAgentState :=
  { s with content_record := { s.content_record with type := typeOptions.get i } }

/-- One human edit through the confirm_content form. -/
inductive FormEdit where
  | channel (i : Fin channelOptions.length)
  | title (v : String)
  | summary (v : String)
  | content (v : String)
  | kind (i : Fin typeOptions.length)

/-- Apply one form edit to the session state. -/
def applyFormEdit (s : DevRelAgentState) : FormEdit → DevRelAgentState
  | FormEdit.channel i => editChannel s i
  | FormEdit.title v => editTitle s v
  | FormEdit.summary v => editSummary s v
  | FormEdit.content v => editContent s v
  | FormEdit.kind i => editType s i

/-- Apply a sequence of form edits, oldest first. -/
def applyFormEdits (s : DevRelAgentState) (es : List FormEdit) : DevRelAgentState :=
  es.foldl applyFormEdit s

/-- One declared parameter of a registered CopilotKit action. -/
structure ParamDecl where
  name : String
  type : String
  description : String
  required : Bool
deriving DecidableEq

/-- One registered CopilotKit action (name, description, parameter schema). -/
structure ActionDecl where
  name : String
  description : String
  parameters : List ParamDecl
deriving DecidableEq

/-- The four `useCopilotAction` registrations of `DevRelPublisher`, in
source order. -/
def registeredActions : List ActionDecl :=
  [ { name := "set_github_repo"
    , description := "Set the GitHub repository URL for analysis"
    , parameters := [{ name := "repo_url", type := "string"
                     , description := "GitHub repository URL", required := true }] }
  , { name := "set_date_range"
    , description := "Set the start date for repository analysis"
    , parameters := [{ name := "start_date", type := "string"
                     , description := "Start date in YYYY-MM-DD format", required := true }] }
  , { name := "select_topic"
    , description := "Select a topic for content generation"
    , parameters := [{ name := "topic_index", type := "number"
                     , description := "Index of selected topic", required := true }] }
  , { name := "confirm_content"
    , description := "Confirm edited content is ready to save"
    , parameters := [] } ]

/-- JS truthiness of an optional string field: defined and non-empty. -/
def truthy : Option String → Bool
  | none => false
  | some v => v != ""

/-- What the status area shows: a status box, an error box, or nothing. -/
inductive StatusRender where
  | statusBox (msg : String)
  | errorBox (msg : String)
  | empty
deriving DecidableEq

/-- The `renderStatus` helper of `DevRelPublisher`: it returns the status
box when `state?.status` is truthy, otherwise the error box when
`state?.error` is truthy, otherwise nothing. -/
def renderStatus (s : DevRelAgentState) : StatusRender :=
  if truthy s.status then StatusRender.statusBox (Option.getD s.status "")
  else if truthy s.error then StatusRender.errorBox (Option.getD s.error "")
  else StatusRender.empty

/-- The `AgentState` of the unnamed sample page (`useCoAgentStateRender`
for `sample_agent`). -/
structure SampleAgentState where
  content_record : Option ContentRecord
  status : Option String
  error : Option String

/-- Which blocks the sample page's state render shows: each of the three
conditional blocks is controlled by its own truthiness test, independently. -/
structure SampleStateRender where
  statusShown : Bool
  errorShown : Bool
  cardShown : Bool
deriving DecidableEq

/-- The `render` of `useCoAgentStateRender` in the unnamed sample page:
`state?.status && <div...>`, `state?.error && <div...>` and
`state?.content_record && <div...>` are three independent conditionals. -/
def coAgentStateRender (s : SampleAgentState) : SampleStateRender :=
  { statusShown := truthy s.status
  , errorShown := truthy s.error
  , cardShown := s.content_record.isSome }

/-- The interactive output of the `select_topic` gate's render: one
clickable topic card per index of the current `topics` list (there is no
other element wired to `respond`), and a waiting message shown exactly
when `state?.topics?.length === 0`. -/
structure SelectTopicRender where
  topicItems : List Nat
  waitingShown : Bool
deriving DecidableEq

/-- Render of the `select_topic` gate from the current session state. -/
def renderSelectTopic (s : DevRelAgentState) : SelectTopicRender :=
  { topicItems := List.range s.topics.length
  , waitingShown := s.topics.length == 0 }

/-- Gate-resolution errors named by the spec. -/
inductive StepError where
  | StaleResponseError
deriving DecidableEq

/-- Modelled from the spec: the agent-side resolution of the `select_topic`
gate lives in the Python backend, which is not under src/.  Per the spec,
a response carrying integer index `i` is validated against the `topics`
list at resolution time: in range it commits `selectedTopic` to
`topics[i]`; out of range it fails with `StaleResponseError` and performs
no mutation. -/
def resolveSelectTopic (s : DevRelAgentState) (i : Int) : Except StepError DevRelAgentState :=
  if h : 0 ≤ i ∧ i < (s.topics.length : Int) then
    Except.ok { s with selected_topic := some (s.topics.get ⟨i.toNat, by omega⟩) }
  else
    Except.error StepError.StaleResponseError

/-- The stages of the workflow sequencer. -/
inductive Stage where
  | setGithubRepo
  | setDateRange
  | selectTopic
  | confirmContent
  | done
deriving DecidableEq

/-- Outcome of resolving the `confirm_content` gate: the stage the
sequencer enters next and whether the confirmation flag is set. -/
structure ConfirmOutcome where
  nextStage : Stage
  confirmationFlag : Bool
deriving DecidableEq

/-- Modelled from the spec: the agent-side handling of the
`confirm_content` response lives in the Python backend, not under src/.
Per the spec, `"CONFIRM"` commits the record and sets the confirmation
flag, `"CANCEL"` re-enters the same gate (a loop, not a new stage), and
those two sentinels are the only legal responses. -/
def confirmTransition (v : String) : Option ConfirmOutcome :=
  if v = "CONFIRM" then some { nextStage := Stage.done, confirmationFlag := true }
  else if v = "CANCEL" then some { nextStage := Stage.confirmContent, confirmationFlag := false }
  else none

/-- The `copilotkit.metadata` object of a state, defaulted to empty as in
`state.copilotkit?.metadata || \x7b\x7d`. -/
def metadataOf (s : DevRelAgentState) : Metadata :=
  Option.getD (Option.bind s.copilotkit (fun c => c.metadata)) []

/-- The `copilotkit.actions` entry of a state, when present. -/
def actionsOf (s : DevRelAgentState) : Option (List String) :=
  Option.bind s.copilotkit (fun c => c.actions)

/-- Agreement of two states on every session-state field except `repo_url`. -/
def SameOutsideRepoUrl (a b : DevRelAgentState) : Prop :=
  a.start_date = b.start_date ∧ a.topics = b.topics ∧
  a.selected_topic = b.selected_topic ∧ a.content_drafts = b.content_drafts ∧
  a.content_record = b.content_record ∧ a.status = b.status ∧
  a.error = b.error ∧ a.copilotkit = b.copilotkit ∧ a.messages = b.messages

/-- Agreement of two states on every session-state field except `start_date`. -/
def SameOutsideStartDate (a b : DevRelAgentState) : Prop :=
  a.repo_url = b.repo_url ∧ a.topics = b.topics ∧
  a.selected_topic = b.selected_topic ∧ a.content_drafts = b.content_drafts ∧
  a.content_record = b.content_record ∧ a.status = b.status ∧
  a.error = b.error ∧ a.copilotkit = b.copilotkit ∧ a.messages = b.messages

/-- Agreement of two states on every session-state field except
`selected_topic`. -/
def SameOutsideSelectedTopic (a b : DevRelAgentState) : Prop :=
  a.repo_url = b.repo_url ∧ a.start_date = b.start_date ∧ a.topics = b.topics ∧
  a.content_drafts = b.content_drafts ∧ a.content_record = b.content_record ∧
  a.status = b.status ∧ a.error = b.error ∧ a.copilotkit = b.copilotkit ∧
  a.messages = b.messages

/-- Agreement of two states on every session-state field except
`content_record`. -/
def SameOutsideContentRecord (a b : DevRelAgentState) : Prop :=
  a.repo_url = b.repo_url ∧ a.start_date = b.start_date ∧ a.topics = b.topics ∧
  a.selected_topic = b.selected_topic ∧ a.content_drafts = b.content_drafts ∧
  a.status = b.status ∧ a.error = b.error ∧ a.copilotkit = b.copilotkit ∧
  a.messages = b.messages

/-- Agreement of two states on every session-state field except
`copilotkit`. -/
def SameOutsideCopilotkit (a b : DevRelAgentState) : Prop :=
  a.repo_url = b.repo_url ∧ a.start_date = b.start_date ∧ a.topics = b.topics ∧
  a.selected_topic = b.selected_topic ∧ a.content_drafts = b.content_drafts ∧
  a.content_record = b.content_record ∧ a.status = b.status ∧
  a.error = b.error ∧ a.messages = b.messages

/-- A concrete topic used in counterexamples and witnesses. -/
def exTopic0 : Topic :=
  { title := "T0", description := "first topic", source_type := "commit"
  , source_id := "c0", content_types := ["blog_post"] }

/-- A second concrete topic. -/
def exTopic1 : Topic :=
  { title := "T1", description := "second topic", source_type := "issue"
  , source_id := "i1", content_types := ["social_media"] }

/-- A concrete session state holding two generated topics. -/
def exStateTwoTopics : DevRelAgentState :=
  { initialState with topics := [exTopic0, exTopic1] }

/-- A concrete session state with both `status` and `error` set. -/
def exStateBothSet : DevRelAgentState :=
  { initialState with
      status := some "Analyzing repository",
      error := some "Analysis failed" }

/-- A concrete session state with only `error` set. -/
def exStateErrorOnly : DevRelAgentState :=
  { initialState with error := some "Analysis failed" }

/-- A throwaway sample-page state for instantiating universally
quantified sample arguments. -/
def exSample : SampleAgentState :=
  { content_record := none, status := none, error := none }

/-- Looking up the key just written by a JS object spread yields the
written value. -/
theorem lookupMeta_spreadSet_self (m : Metadata) (k : String) (v : MVal) :
    lookupMeta (spreadSet m k v) k = some v := by
  induction m with
  | nil => simp [spreadSet, lookupMeta]
  | cons p rest ih =>
      rcases p with ⟨k2, v2⟩
      by_cases h : k2 = k
      · simpa [spreadSet, List.filter_cons, h] using ih
      · simpa [spreadSet, List.filter_cons, h, lookupMeta] using ih

/-- A JS object spread leaves the binding of every other key unchanged. -/
theorem lookupMeta_spreadSet_other (m : Metadata) (k : String) (v : MVal)
    (k2 : String) (h : k2 ≠ k) :
    lookupMeta (spreadSet m k v) k2 = lookupMeta m k2 := by
  have hks : k ≠ k2 := Ne.symm h
  induction m with
  | nil => simp [spreadSet, lookupMeta, hks]
  | cons p rest ih =>
      rcases p with ⟨k3, v3⟩
      by_cases h3 : k3 = k
      · subst h3
        simpa [spreadSet, List.filter_cons, lookupMeta, hks] using ih
      · by_cases h32 : k3 = k2
        · subst h32
          simp [spreadSet, List.filter_cons, lookupMeta, h3]
        · simpa [spreadSet, List.filter_cons, lookupMeta, h3, h32] using ih

/-- Claim C1: responding to the `select_topic` gate with an integer index
`i` with `0 ≤ i < ` current `topics` length at resolution time always
resolves to the state whose `selected_topic` is `topics[i]`; any index
outside that range always fails with `StaleResponseError`, producing no
successor state at all, so `selected_topic` is never mutated. -/
theorem C1_select_topic_resolution (s : DevRelAgentState) (i : Int) :
    (0 ≤ i ∧ i < (s.topics.length : Int) →
      resolveSelectTopic s i =
        Except.ok { s with selected_topic := s.topics.get? i.toNat }) ∧
    (¬ (0 ≤ i ∧ i < (s.topics.length : Int)) →
      resolveSelectTopic s i = Except.error StepError.StaleResponseError) := by
  constructor
  · intro h
    have hlt : i.toNat < s.topics.length := by omega
    rw [resolveSelectTopic, dif_pos h, List.get?_eq_get hlt]
  · intro h
    rw [resolveSelectTopic, dif_neg h]

/-- Witness for C1 at a concrete two-topic state: index 1 is in range and
commits the second topic; index 5 is out of range and fails stale. -/
theorem C1_select_topic_resolution_witness :
    (0 ≤ (1 : Int) ∧ (1 : Int) < (exStateTwoTopics.topics.length : Int)) ∧
    resolveSelectTopic exStateTwoTopics 1 =
      Except.ok { exStateTwoTopics with
        selected_topic := exStateTwoTopics.topics.get? (1 : Int).toNat } ∧
    ¬ (0 ≤ (5 : Int) ∧ (5 : Int) < (exStateTwoTopics.topics.length : Int)) ∧
    resolveSelectTopic exStateTwoTopics 5 = Except.error StepError.StaleResponseError :=
  ⟨by decide, (C1_select_topic_resolution exStateTwoTopics 1).1 (by decide),
   by decide, (C1_select_topic_resolution exStateTwoTopics 5).2 (by decide)⟩

/-- Claim C2 is refuted at a concrete input: the `select_topic` topic
cards carry no `disabled` guard, so clicking a card against a gate whose
status is no longer executing still mutates Session State, setting
`selected_topic` to the clicked topic even though no response is
delivered. -/
theorem C2_counterexample :
    exStateTwoTopics.selected_topic = none ∧
    (topicClick GateStatus.complete exStateTwoTopics ⟨0, by decide⟩).1.selected_topic =
      some exTopic0 ∧
    (topicClick GateStatus.complete exStateTwoTopics ⟨0, by decide⟩).1 ≠ exStateTwoTopics ∧
    (topicClick GateStatus.complete exStateTwoTopics ⟨0, by decide⟩).2 = none := by
  refine ⟨rfl, rfl, ?_, rfl⟩
  decide

/-- Claim C2 (amended): submitting a response against a gate whose status
is no longer executing leaves Session State unchanged and delivers no
response for `set_github_repo`, `set_date_range` and both
`confirm_content` buttons (they are disabled); for `select_topic`,
clicking a topic card delivers no response but still sets
`selected_topic` to the clicked topic, leaving every other field
unchanged. -/
theorem C2_terminal_gate_clicks (st : GateStatus) (s : DevRelAgentState)
    (i : Fin s.topics.length) (h : st ≠ GateStatus.executing) :
    submitRepoClick st s = (s, none) ∧
    submitDateClick st s = (s, none) ∧
    editMoreClick st s = (s, none) ∧
    savePublishClick st s = (s, none) ∧
    (topicClick st s i).2 = none ∧
    (topicClick st s i).1.selected_topic = some (s.topics.get i) ∧
    SameOutsideSelectedTopic (topicClick st s i).1 s := by
  refine ⟨?_, ?_, ?_, ?_, ?_, rfl, ?_⟩ <;>
    simp [submitRepoClick, submitDateClick, editMoreClick, savePublishClick,
      topicClick, SameOutsideSelectedTopic, h]

/-- Witness for the amended C2 at a concrete terminal gate. -/
theorem C2_terminal_gate_clicks_witness :
    GateStatus.complete ≠ GateStatus.executing ∧
    submitRepoClick GateStatus.complete exStateTwoTopics = (exStateTwoTopics, none) ∧
    (topicClick GateStatus.complete exStateTwoTopics ⟨1, by decide⟩).2 = none :=
  ⟨by decide,
   (C2_terminal_gate_clicks GateStatus.complete exStateTwoTopics ⟨1, by decide⟩ (by decide)).1,
   (C2_terminal_gate_clicks GateStatus.complete exStateTwoTopics ⟨1, by decide⟩
     (by decide)).2.2.2.2.1⟩

/-- Claim C3 is refuted at a concrete input: with both `status` and
`error` set, `renderStatus` shows the status box (the `status` branch is
tested first), so a non-empty `error` does not suppress status
rendering; and the sample page's state render shows both blocks at
once. -/
theorem C3_counterexample :
    truthy exStateBothSet.error = true ∧
    renderStatus exStateBothSet = StatusRender.statusBox "Analyzing repository" ∧
    coAgentStateRender
        { content_record := none, status := some "Generating drafts",
          error := some "Persistence failed" } =
      { statusShown := true, errorShown := true, cardShown := false } := by
  refine ⟨rfl, ?_, rfl⟩
  decide

/-- Claim C3 (amended): in `renderStatus` the precedence is the reverse
of the claim — a truthy `status` always wins and suppresses the error
box; the error box renders exactly when `status` is not truthy and
`error` is; and the sample page's state render shows the status and
error blocks independently, with no suppression in either direction. -/
theorem C3_status_precedence (s : DevRelAgentState) (t : SampleAgentState) :
    (truthy s.status = true →
      renderStatus s = StatusRender.statusBox (Option.getD s.status "")) ∧
    (truthy s.status = false → truthy s.error = true →
      renderStatus s = StatusRender.errorBox (Option.getD s.error "")) ∧
    (truthy s.status = false → truthy s.error = false →
      renderStatus s = StatusRender.empty) ∧
    (coAgentStateRender t).statusShown = truthy t.status ∧
    (coAgentStateRender t).errorShown = truthy t.error := by
  refine ⟨?_, ?_, ?_, rfl, rfl⟩
  · intro h1
    simp [renderStatus, h1]
  · intro h1 h2
    simp [renderStatus, h1, h2]
  · intro h1 h2
    simp [renderStatus, h1, h2]

/-- Witness for the amended C3 at concrete states: with both fields set
the status box wins; with only `error` set the error box renders. -/
theorem C3_status_precedence_witness :
    truthy exStateBothSet.status = true ∧
    renderStatus exStateBothSet = StatusRender.statusBox (Option.getD exStateBothSet.status "") ∧
    truthy exStateErrorOnly.status = false ∧
    truthy exStateErrorOnly.error = true ∧
    renderStatus exStateErrorOnly = StatusRender.errorBox (Option.getD exStateErrorOnly.error "") :=
  ⟨by decide, (C3_status_precedence exStateBothSet exSample).1 (by decide),
   by decide, by decide,
   (C3_status_precedence exStateErrorOnly exSample).2.1 (by decide) (by decide)⟩

/-- Claim C4: the `confirm_content` registration declares an empty
parameter list; the only `respond` values its render can deliver are the
sentinels `"CONFIRM"` (Save & Publish) and `"CANCEL"` (Edit More);
responding `"CONFIRM"` sets the client-side confirmation flag
`copilotkit.metadata.confirmed` to true; and, per the spec-modelled
sequencer transition, `"CANCEL"` re-enters the same `confirm_content`
gate while `"CONFIRM"` advances with the confirmation flag set. -/
theorem C4_confirm_content (st : GateStatus) (s : DevRelAgentState) :
    (registeredActions.filter (fun a => a.name == "confirm_content")).map
        (fun a => a.parameters) = [[]] ∧
    ((editMoreClick st s).2 = none ∨
      (editMoreClick st s).2 = some (RespondValue.str "CANCEL")) ∧
    ((savePublishClick st s).2 = none ∨
      (savePublishClick st s).2 = some (RespondValue.str "CONFIRM")) ∧
    lookupMeta (metadataOf (savePublishClick GateStatus.executing s).1) "confirmed" =
      some (MVal.bool true) ∧
    confirmTransition "CANCEL" =
      some { nextStage := Stage.confirmContent, confirmationFlag := false } ∧
    confirmTransition "CONFIRM" =
      some { nextStage := Stage.done, confirmationFlag := true } := by
  refine ⟨by decide, ?_, ?_, ?_, by decide, by decide⟩
  · by_cases hst : st = GateStatus.executing <;> simp [editMoreClick, hst]
  · by_cases hst : st = GateStatus.executing <;> simp [savePublishClick, hst]
  · exact lookupMeta_spreadSet_self (metadataOf s) "confirmed" (MVal.bool true)

/-- Claim C5 is refuted at a concrete input: in the initial state the
repository URL is the empty string, yet clicking Submit on an executing
`set_github_repo` gate resolves it with that empty string — the client
enforces no non-emptiness requirement. -/
theorem C5_counterexample :
    initialState.repo_url = "" ∧
    (submitRepoClick GateStatus.executing initialState).2 =
      some (RespondValue.str "") := by
  decide

/-- Claim C5 (amended): the `set_github_repo` gate declares `repo_url` as
a required string parameter but does not enforce non-emptiness; Submit on
an executing gate performs no state mutation and resolves the gate with
exactly the current `repo_url` string — the string the human entered,
character for character — including the empty string. -/
theorem C5_repo_submit_exact (s : DevRelAgentState) (v : String) :
    submitRepoClick GateStatus.executing s = (s, some (RespondValue.str s.repo_url)) ∧
    (repoInputChange s v).repo_url = v ∧
    (submitRepoClick GateStatus.executing (repoInputChange s v)).2 =
      some (RespondValue.str v) := by
  refine ⟨?_, rfl, ?_⟩ <;> simp [submitRepoClick, repoInputChange]

/-- Claim C6: every client-side `setState` edit handler submits a full
replacement snapshot: the edited field carries the new value and every
other Session State field is unchanged from the previous snapshot. -/
theorem C6_full_document_replace (s : DevRelAgentState) (v : String)
    (st : GateStatus) (i : Fin s.topics.length)
    (c : Fin channelOptions.length) (t : Fin typeOptions.length) :
    ((repoInputChange s v).repo_url = v ∧ SameOutsideRepoUrl (repoInputChange s v) s) ∧
    ((dateInputChange s v).start_date = v ∧ SameOutsideStartDate (dateInputChange s v) s) ∧
    ((topicClick st s i).1.selected_topic = some (s.topics.get i) ∧
      SameOutsideSelectedTopic (topicClick st s i).1 s) ∧
    ((editChannel s c).content_record =
        { s.content_record with channel := channelOptions.get c } ∧
      SameOutsideContentRecord (editChannel s c) s) ∧
    ((editTitle s v).content_record = { s.content_record with title := v } ∧
      SameOutsideContentRecord (editTitle s v) s) ∧
    ((editSummary s v).content_record = { s.content_record with summary := v } ∧
      SameOutsideContentRecord (editSummary s v) s) ∧
    ((editContent s v).content_record = { s.content_record with content := v } ∧
      SameOutsideContentRecord (editContent s v) s) ∧
    ((editType s t).content_record =
        { s.content_record with type := typeOptions.get t } ∧
      SameOutsideContentRecord (editType s t) s) := by
  refine ⟨⟨rfl, ?_⟩, ⟨rfl, ?_⟩, ⟨rfl, ?_⟩, ⟨rfl, ?_⟩, ⟨rfl, ?_⟩, ⟨rfl, ?_⟩,
    ⟨rfl, ?_⟩, ⟨rfl, ?_⟩⟩ <;>
    exact ⟨rfl, rfl, rfl, rfl, rfl, rfl, rfl, rfl, rfl⟩

/-- Claim C7: the workflow registers exactly the four gated actions, in
pipeline order, with exactly the declared parameter schemas. -/
theorem C7_registry :
    registeredActions.map (fun a => a.name) =
      ["set_github_repo", "set_date_range", "select_topic", "confirm_content"] ∧
    registeredActions.map
        (fun a => a.parameters.map (fun p => (p.name, p.type, p.required))) =
      [[("repo_url", "string", true)], [("start_date", "string", true)],
       [("topic_index", "number", true)], []] := by
  decide

/-- One form edit preserves membership of `content_record.channel` in the
rendered channel options. -/
theorem applyFormEdit_channel_mem (s : DevRelAgentState) (e : FormEdit)
    (h : s.content_record.channel ∈ channelOptions) :
    (applyFormEdit s e).content_record.channel ∈ channelOptions := by
  cases e <;>
    simp only [applyFormEdit, editChannel, editTitle, editSummary, editContent, editType] <;>
    first
      | exact h
      | exact List.get_mem channelOptions _ _

/-- One form edit preserves membership of `content_record.type` in the
rendered type options. -/
theorem applyFormEdit_type_mem (s : DevRelAgentState) (e : FormEdit)
    (h : s.content_record.type ∈ typeOptions) :
    (applyFormEdit s e).content_record.type ∈ typeOptions := by
  cases e <;>
    simp only [applyFormEdit, editChannel, editTitle, editSummary, editContent, editType] <;>
    first
      | exact h
      | exact List.get_mem typeOptions _ _

/-- Any sequence of form edits preserves both memberships. -/
theorem applyFormEdits_mem (es : List FormEdit) (s : DevRelAgentState)
    (hc : s.content_record.channel ∈ channelOptions)
    (ht : s.content_record.type ∈ typeOptions) :
    (applyFormEdits s es).content_record.channel ∈ channelOptions ∧
    (applyFormEdits s es).content_record.type ∈ typeOptions := by
  induction es generalizing s with
  | nil => exact ⟨hc, ht⟩
  | cons e rest ih =>
      exact ih (applyFormEdit s e) (applyFormEdit_channel_mem s e hc)
        (applyFormEdit_type_mem s e ht)

/-- Claim C8: under every sequence of human edits through the content
form, `content_record.channel` stays in the channel select's option set
(empty or blog, twitter, linkedin, github) and `content_record.type`
stays in the type select's option set (empty or blog_post, code_example,
social_media). -/
theorem C8_channel_type_invariant (es : List FormEdit) :
    (applyFormEdits initialState es).content_record.channel ∈ channelOptions ∧
    (applyFormEdits initialState es).content_record.type ∈ typeOptions :=
  applyFormEdits_mem es initialState (by decide) (by decide)

/-- Claim C9: with an empty `topics` list at render time, the
`select_topic` render offers no clickable topic card (only the waiting
message), and since the topic cards are the only elements wired to
`respond`, no click index exists at all — the client cannot resolve the
gate and `selected_topic` stays whatever it was (null in a fresh
session). -/
theorem C9_empty_topics_no_resolution (s : DevRelAgentState) (h : s.topics = []) :
    (renderSelectTopic s).topicItems = [] ∧
    (renderSelectTopic s).waitingShown = true ∧
    IsEmpty (Fin s.topics.length) := by
  refine ⟨?_, ?_, ?_⟩
  · simp [renderSelectTopic, h]
  · simp [renderSelectTopic, h]
  · rw [h]
    exact ⟨fun i => absurd i.isLt (by simp)⟩

/-- Witness for C9 at the initial session state, whose topics list is
empty. -/
theorem C9_empty_topics_no_resolution_witness :
    initialState.topics = [] ∧
    (renderSelectTopic initialState).topicItems = [] ∧
    (renderSelectTopic initialState).waitingShown = true ∧
    IsEmpty (Fin initialState.topics.length) :=
  ⟨rfl, (C9_empty_topics_no_resolution initialState rfl).1,
   (C9_empty_topics_no_resolution initialState rfl).2.1,
   (C9_empty_topics_no_resolution initialState rfl).2.2⟩

/-- Claim C10: on an executing `confirm_content` gate, Edit More responds
`"CANCEL"` with no state mutation at all, and Save & Publish responds
`"CONFIRM"` mutating only `copilotkit.metadata.confirmed` (set to true):
`content_record` and every other Session State field are unchanged,
`copilotkit.actions` is preserved, and every metadata key other than
`confirmed` keeps its previous binding. -/
theorem C10_confirm_frame (s : DevRelAgentState) (k : String) :
    editMoreClick GateStatus.executing s = (s, some (RespondValue.str "CANCEL")) ∧
    (savePublishClick GateStatus.executing s).2 = some (RespondValue.str "CONFIRM") ∧
    (savePublishClick GateStatus.executing s).1.content_record = s.content_record ∧
    SameOutsideCopilotkit (savePublishClick GateStatus.executing s).1 s ∧
    actionsOf (savePublishClick GateStatus.executing s).1 = actionsOf s ∧
    lookupMeta (metadataOf (savePublishClick GateStatus.executing s).1) "confirmed" =
      some (MVal.bool true) ∧
    (k ≠ "confirmed" →
      lookupMeta (metadataOf (savePublishClick GateStatus.executing s).1) k =
        lookupMeta (metadataOf s) k) := by
  refine ⟨rfl, rfl, rfl, ⟨rfl, rfl, rfl, rfl, rfl, rfl, rfl, rfl, rfl⟩, rfl,
    lookupMeta_spreadSet_self (metadataOf s) "confirmed" (MVal.bool true), ?_⟩
  intro hk
  exact lookupMeta_spreadSet_other (metadataOf s) "confirmed" (MVal.bool true) k hk

/-- Witness for C10 at a concrete state and a concrete non-confirmed
metadata key. -/
theorem C10_confirm_frame_witness :
    ("draft_id" : String) ≠ "confirmed" ∧
    lookupMeta (metadataOf (savePublishClick GateStatus.executing exStateTwoTopics).1)
        "draft_id" =
      lookupMeta (metadataOf exStateTwoTopics) "draft_id" :=
  ⟨by decide, (C10_confirm_frame exStateTwoTopics "draft_id").2.2.2.2.2.2 (by decide)⟩

end DevRel
